import Mathlib

/-!
Verification of the signal-hook exfiltrator core: the `SignalOnly` and
`WithOrigin` exfiltrators from `src/iterator/exfiltrator.rs`, the
`Origin::extract` decoder from `signal-hook-sys/src/lib.rs`, and the
build step of `signal-hook-consts/build.rs`.

Machine integers are modelled as `Int` (for the signed C types `c_int`,
`pid_t`, exit statuses) and `Nat` (for `u64` words and the unsigned
`uid_t`), with wrapping casts written out as `%`-reductions where the
source performs an `as` cast.
-/

namespace SignalHook

/-- The fields of the raw signal metadata record (C `siginfo_t`) that the
exfiltrators read: the `si_code` classification and the sender pid/uid
accessors `si_pid()` / `si_uid()`. `pid_t` is a signed 32-bit integer,
modelled as `Int`; `uid_t` is an unsigned 32-bit integer, modelled as
`Nat`. -/
structure SigInfo where
  si_code : Int
  si_pid : Int
  si_uid : Nat
deriving DecidableEq

/-- The two platform constants `SI_QUEUE` and `SI_USER` imported from the
`signal_hook_consts` crate. Their numeric values are generated at build
time by the platform probe and are platform dependent, so the model takes
them as parameters. -/
structure PlatformConsts where
  SI_QUEUE : Int
  SI_USER : Int
deriving DecidableEq

/-- Concrete sample values for the platform constants, as emitted by the
probe on Linux (`SI_QUEUE = -1`, `SI_USER = 0`); used only to instantiate
universally quantified statements at a concrete platform. -/
def linuxConsts : PlatformConsts := { SI_QUEUE := -1, SI_USER := 0 }

/-- `SignalOnly`'s storage is an `AtomicBool`; its `Default` value is
`false` ("no signal delivered"). -/
def SignalOnly.defaultSlot : Bool := false

/-- `SignalOnly::supports_signal`: returns `true` for every signal. -/
def SignalOnly.supportsSignal (_sig : Int) : Bool := true

/-- `SignalOnly::store`: `slot.store(true, SeqCst)` — unconditionally sets
the flag, ignoring the signal number and the metadata. Returns the new
slot value. -/
def SignalOnly.store (_slot : Bool) (_signal : Int) (_info : SigInfo) : Bool :=
  true

/-- `SignalOnly::load`: `compare_exchange(true, false, SeqCst, Relaxed)`;
on success (slot was `true`) the slot becomes `false` and the signal
number is returned, on failure the slot is unchanged and `None` is
returned. Returns the new slot value paired with the output. -/
def SignalOnly.load (slot : Bool) (signal : Int) : Bool × Option Int :=
  if slot = true then (false, some signal) else (slot, none)

/-- A finite sequence of `SignalOnly::store` calls (each with its signal
argument and metadata) applied to a slot in order. -/
def SignalOnly.storeSeq (calls : List (Int × SigInfo)) (slot : Bool) : Bool :=
  calls.foldl (fun s call => SignalOnly.store s call.1 call.2) slot

/-- The `OriginType` enum of `exfiltrator.rs`: who caused the signal. -/
inductive OriginType where
  | Unknown : OriginType
  | Process : (pid : Int) → (uid : Nat) → OriginType
deriving DecidableEq

/-- The `Origin` struct of `exfiltrator.rs`: the signal number together
with its classified origin. -/
structure Origin where
  signal : Int
  origin_type : OriginType
deriving DecidableEq

/-- `WithOrigin::compose`: packs a pid and a uid into one `u64` word,
`((pid as u32) as u64) << 32 | ((uid as u32) as u64)`. The `as u32`
casts are the wrapping reductions `% 2^32`; the shift and the bitwise or
cannot overflow 64 bits because both halves are below `2^32`. -/
def WithOrigin.compose (pid : Int) (uid : Nat) : Nat :=
  ((pid % (2 ^ 32 : Int)).toNat <<< 32) ||| (uid % 2 ^ 32)

/-- `WithOrigin::EMPTY`: the sentinel marking an empty slot,
`compose(-1, 1)`. -/
def WithOrigin.EMPTY : Nat := WithOrigin.compose (-1) 1

/-- `WithOrigin::UNKNOWN`: the sentinel marking a pending delivery of
unknown origin, `compose(-1, 2)`. -/
def WithOrigin.UNKNOWN : Nat := WithOrigin.compose (-1) 2

/-- `Default for OriginStorage`: a fresh `WithOrigin` slot holds the
`EMPTY` sentinel. -/
def OriginStorage.default : Nat := WithOrigin.EMPTY

/-- `WithOrigin::supports_signal`: returns `true` for every signal. -/
def WithOrigin.supportsSignal (_sig : Int) : Bool := true

/-- `WithOrigin::store`: if `info.si_code` equals `SI_QUEUE` or `SI_USER`
the packed `(si_pid, si_uid)` word is stored, otherwise the `UNKNOWN`
sentinel is stored; in either case the previous slot value is simply
overwritten. Returns the new slot value. -/
def WithOrigin.store (c : PlatformConsts) (_slot : Nat) (_signal : Int) (info : SigInfo) : Nat :=
  if info.si_code = c.SI_QUEUE ∨ info.si_code = c.SI_USER then
    WithOrigin.compose info.si_pid info.si_uid
  else
    WithOrigin.UNKNOWN

/-- The pid half of `WithOrigin::load`'s decoding of a packed word:
`((composed >> 32) as u32) as pid_t` — the high 32 bits reinterpreted as
a signed 32-bit integer (two's complement). -/
def WithOrigin.decodePid (w : Nat) : Int :=
  if (w >>> 32) % 2 ^ 32 < 2 ^ 31 then ((w >>> 32) % 2 ^ 32 : Nat)
  else ((w >>> 32) % 2 ^ 32 : Nat) - 2 ^ 32

/-- The uid half of `WithOrigin::load`'s decoding of a packed word:
`composed as u32` — the low 32 bits. -/
def WithOrigin.decodeUid (w : Nat) : Nat := w % 2 ^ 32

/-- `WithOrigin::load`: `swap(EMPTY, SeqCst)` on the slot, then match the
previous value: `EMPTY ↦ None`; `UNKNOWN ↦ Some(Origin{signal, Unknown})`;
any other word is unpacked as a `(pid, uid)` pair. Returns the new slot
value (always `EMPTY`) paired with the output. -/
def WithOrigin.load (slot : Nat) (signal : Int) : Nat × Option Origin :=
  (WithOrigin.EMPTY,
    if slot = WithOrigin.EMPTY then none
    else if slot = WithOrigin.UNKNOWN then
      some { signal := signal, origin_type := OriginType.Unknown }
    else
      some { signal := signal,
             origin_type := OriginType.Process (WithOrigin.decodePid slot) (WithOrigin.decodeUid slot) })

/-- A finite sequence of `WithOrigin::store` calls applied to a slot in
order. -/
def WithOrigin.storeSeq (c : PlatformConsts) (calls : List (Int × SigInfo)) (slot : Nat) : Nat :=
  calls.foldl (fun s call => WithOrigin.store c s call.1 call.2) slot

end SignalHook

namespace SignalHook.Internal

/-- The `Cause` enum of `signal-hook-sys`: why the signal happened. -/
inductive Cause where
  | User : Cause
  | Queue : Cause
  | MesgQ : Cause
  | Exited : Cause
  | Killed : Cause
  | Dumped : Cause
  | Trapped : Cause
  | Stopped : Cause
  | Continued : Cause
deriving DecidableEq

/-- The `Origin` enum of `signal-hook-sys`: unknown, raised by the kernel,
or sent by a process with a pid, a uid and a cause. -/
inductive Origin where
  | Unknown : Origin
  | Kernel : Origin
  | Process : (pid : Int) → (uid : Nat) → (cause : Cause) → Origin
deriving DecidableEq

/-- `ORIGIN_UNKNOWN`: discriminant for an undetermined origin. -/
def ORIGIN_UNKNOWN : Nat := 0

/-- `ORIGIN_PROCESS`: discriminant for a process-sent signal. -/
def ORIGIN_PROCESS : Nat := 1

/-- `ORIGIN_KERNEL`: discriminant for a kernel-raised signal. -/
def ORIGIN_KERNEL : Nat := 2

/-- The observable result of one call to the native C helper
`sighook_signal_origin`: the `u8` discriminant it returns together with
the values it wrote through the `pid`/`uid` output parameters. The C
helper itself is outside the embedded sources; `Origin.extract` is
modelled as a function of this observed triple. -/
structure NativeDecode where
  origin : Nat
  pid : Int
  uid : Nat
deriving DecidableEq

/-- The outcome of `Origin::extract`: either an `Origin` value, or the
process is terminated via `abort()` (which never returns). -/
inductive ExtractResult where
  | ok : Origin → ExtractResult
  | abort : ExtractResult
deriving DecidableEq

/-- `Origin::extract`: matches the discriminant returned by the native
helper against `ORIGIN_UNKNOWN`, `ORIGIN_KERNEL` and `ORIGIN_PROCESS`
(in the source's match-arm order); the process case carries the pid and
uid written by the helper with `Cause::User`; every other discriminant
falls into the wildcard arm, which calls `abort()`. -/
def Origin.extract (r : NativeDecode) : ExtractResult :=
  if r.origin = ORIGIN_UNKNOWN then ExtractResult.ok Origin.Unknown
  else if r.origin = ORIGIN_KERNEL then ExtractResult.ok Origin.Kernel
  else if r.origin = ORIGIN_PROCESS then
    ExtractResult.ok (Origin.Process r.pid r.uid Cause.User)
  else ExtractResult.abort

end SignalHook.Internal

namespace SignalHook.Build

/-- The outcome of `std::process::Command::status()` on one child
process: `spawnFailed` models the `Err` case (the process could not be
started at all), `exited code` models `Ok(ExitStatus)` for a process
that ran and exited with the given status. `.expect(..)` panics exactly
on the `Err` case; a non-zero exit status is still `Ok`. -/
inductive SpawnOutcome where
  | spawnFailed : SpawnOutcome
  | exited : Int → SpawnOutcome
deriving DecidableEq

/-- What the build step leaves behind: whether it panicked (terminated
abnormally) and whether the generated constants file in `OUT_DIR` was
created. -/
structure BuildOutcome where
  panicked : Bool
  constantsFileCreated : Bool
deriving DecidableEq

/-- The `main` of `signal-hook-consts/build.rs`, as a function of how
the two child processes behave: first the host C compiler is run on the
probe source (`status().expect(..)` — panics only if it cannot be
started); then `File::create` creates the generated constants file; then
the compiled probe is run with its stdout redirected into that file
(`status().expect(..)` again). Neither `status()` result is checked for
exit-status success. -/
def buildMain (compilerRun : SpawnOutcome) (probeRun : SpawnOutcome) : BuildOutcome :=
  match compilerRun with
  | SpawnOutcome.spawnFailed => { panicked := true, constantsFileCreated := false }
  | SpawnOutcome.exited _ =>
    match probeRun with
    | SpawnOutcome.spawnFailed => { panicked := true, constantsFileCreated := true }
    | SpawnOutcome.exited _ => { panicked := false, constantsFileCreated := true }

/-- Following the spec's words ("Failure to compile or execute the probe
is a fatal build error"): a child-process run counts as failed when the
process could not be started or when it exited with a non-zero status.
Stated separately from the code model to compare the two. -/
def specRunFailed (s : SpawnOutcome) : Bool :=
  match s with
  | SpawnOutcome.spawnFailed => true
  | SpawnOutcome.exited code => decide (code ≠ 0)

end SignalHook.Build

namespace SignalHook

theorem compose_eq_arith (p : Int) (u : Nat) :
    WithOrigin.compose p u = (p % (2 ^ 32 : Int)).toNat * 2 ^ 32 + u % 2 ^ 32 := by
  have h : u % 2 ^ 32 < 2 ^ 32 := Nat.mod_lt _ (by norm_num)
  unfold WithOrigin.compose
  rw [Nat.shiftLeft_eq, Nat.mul_comm, ← Nat.mul_add_lt_is_or h, Nat.mul_comm]

theorem decode_compose_pid (p : Int) (u : Nat)
    (hp1 : -(2 ^ 31) ≤ p) (hp2 : p < 2 ^ 31) :
    WithOrigin.decodePid (WithOrigin.compose p u) = p := by
  rw [compose_eq_arith]
  unfold WithOrigin.decodePid
  have hshift : ((p % (2 ^ 32 : Int)).toNat * 2 ^ 32 + u % 2 ^ 32) >>> 32
      = (p % (2 ^ 32 : Int)).toNat := by
    rw [Nat.shiftRight_eq_div_pow]
    omega
  rw [hshift]
  split <;> omega

theorem decode_compose_uid (p : Int) (u : Nat) (hu : u < 2 ^ 32) :
    WithOrigin.decodeUid (WithOrigin.compose p u) = u := by
  rw [compose_eq_arith]
  unfold WithOrigin.decodeUid
  omega

theorem compose_eq_empty_iff (p : Int) (u : Nat)
    (hp1 : -(2 ^ 31) ≤ p) (hp2 : p < 2 ^ 31) (hu : u < 2 ^ 32) :
    WithOrigin.compose p u = WithOrigin.EMPTY ↔ (p = -1 ∧ u = 1) := by
  rw [show WithOrigin.EMPTY = WithOrigin.compose (-1) 1 from rfl,
    compose_eq_arith, compose_eq_arith]
  omega

theorem compose_eq_unknown_iff (p : Int) (u : Nat)
    (hp1 : -(2 ^ 31) ≤ p) (hp2 : p < 2 ^ 31) (hu : u < 2 ^ 32) :
    WithOrigin.compose p u = WithOrigin.UNKNOWN ↔ (p = -1 ∧ u = 2) := by
  rw [show WithOrigin.UNKNOWN = WithOrigin.compose (-1) 2 from rfl,
    compose_eq_arith, compose_eq_arith]
  omega

theorem compose_decode (w : Nat) (hw : w < 2 ^ 64) :
    WithOrigin.compose (WithOrigin.decodePid w) (WithOrigin.decodeUid w) = w := by
  rw [compose_eq_arith]
  unfold WithOrigin.decodePid WithOrigin.decodeUid
  rw [Nat.shiftRight_eq_div_pow]
  split <;> omega

theorem signalOnly_storeSeq_true (calls : List (Int × SigInfo)) :
    SignalOnly.storeSeq calls true = true := by
  induction calls with
  | nil => rfl
  | cons a t ih => exact ih

theorem signalOnly_storeSeq_nonempty (calls : List (Int × SigInfo)) (h : calls ≠ [])
    (s : Bool) : SignalOnly.storeSeq calls s = true := by
  cases calls with
  | nil => exact absurd rfl h
  | cons a t => exact signalOnly_storeSeq_true t

/-- Claim C10: both reference exfiltrators accept every signal number —
`SignalOnly::supports_signal` and `WithOrigin::supports_signal` return
`true` for every `c_int` argument, so neither strategy ever causes the
registration layer to reject a signal registration. -/
theorem supports_every_signal (sig : Int) :
    SignalOnly.supportsSignal sig = true ∧ WithOrigin.supportsSignal sig = true :=
  ⟨rfl, rfl⟩

/-- Claim C4: for every non-empty sequence of `SignalOnly::store` calls on
a slot starting in the default (`false`) state, a single `load` returns
`Some(signal)` with `signal` being `load`'s signal argument, and a second
immediate `load` without an intervening `store` returns `None`, however
many stores occurred: repeated deliveries coalesce into one event. -/
theorem signalOnly_coalesce (calls : List (Int × SigInfo)) (h : calls ≠ []) (signal : Int) :
    (SignalOnly.load (SignalOnly.storeSeq calls SignalOnly.defaultSlot) signal).2 = some signal
    ∧ (SignalOnly.load
        (SignalOnly.load (SignalOnly.storeSeq calls SignalOnly.defaultSlot) signal).1 signal).2
      = none := by
  rw [signalOnly_storeSeq_nonempty calls h]
  exact ⟨rfl, rfl⟩

/-- Claim C4 witness: one store of signal 2, then the first load observes
it and the second load does not. -/
theorem signalOnly_coalesce_witness :
    (SignalOnly.load (SignalOnly.storeSeq [(2, ⟨0, 0, 0⟩)] SignalOnly.defaultSlot) 2).2 = some 2
    ∧ (SignalOnly.load
        (SignalOnly.load (SignalOnly.storeSeq [(2, ⟨0, 0, 0⟩)] SignalOnly.defaultSlot) 2).1 2).2
      = none :=
  signalOnly_coalesce [(2, ⟨0, 0, 0⟩)] (List.cons_ne_nil _ _) 2

/-- Claim C8: for both exfiltrators, `load` on a slot holding its default
value returns `None`, and `load` is draining: after any `load`, a second
`load` with no intervening `store` returns `None`, because the first
`load` always leaves the slot in its default state. -/
theorem load_default_none_and_draining :
    (∀ signal : Int, (SignalOnly.load SignalOnly.defaultSlot signal).2 = none)
    ∧ (∀ signal : Int, (WithOrigin.load OriginStorage.default signal).2 = none)
    ∧ (∀ (b : Bool) (s1 s2 : Int),
        (SignalOnly.load (SignalOnly.load b s1).1 s2).2 = none)
    ∧ (∀ (w : Nat) (s1 s2 : Int),
        (WithOrigin.load (WithOrigin.load w s1).1 s2).2 = none) := by
  refine ⟨fun signal => rfl, fun signal => ?_, fun b s1 s2 => ?_, fun w s1 s2 => ?_⟩
  · simp [WithOrigin.load, OriginStorage.default]
  · cases b <;> rfl
  · simp [WithOrigin.load]

/-- Claim C1 counterexample: the claim quantifies over every 32-bit pid
and uid, but the pair `(pid = -1, uid = 1)` packs to exactly the `EMPTY`
sentinel. With the Linux platform constants, storing a user-raised
delivery (`si_code = SI_USER = 0`) with sender pid `-1` and uid `1` into
an empty slot makes the next `load` return `None` instead of the claimed
`Some` carrying `Process` with pid `-1` and uid `1`. -/
theorem withOrigin_sentinel_pair_lost :
    (WithOrigin.load (WithOrigin.store linuxConsts OriginStorage.default 10 ⟨0, -1, 1⟩) 10).2
      = none
    ∧ (WithOrigin.load (WithOrigin.store linuxConsts OriginStorage.default 10 ⟨0, -1, 1⟩) 10).2
      ≠ some { signal := 10, origin_type := OriginType.Process (-1) 1 } := by
  exact ⟨by decide, by decide⟩

/-- Claim C1 (amended): for every 32-bit pid and uid other than the two
sentinel pairs `(-1, 1)` and `(-1, 2)`, after exactly one `store` on an
empty slot with a raw-metadata code equal to `SI_QUEUE` or `SI_USER`, the
next `load` returns `Some` of an `Origin` carrying `load`'s signal
argument and `Process` with that pid and uid, and the result is returned
exactly once: a subsequent `load` without an intervening `store` returns
`None`. -/
theorem withOrigin_store_once_load_once (c : PlatformConsts) (info : SigInfo) (signal : Int)
    (hcode : info.si_code = c.SI_QUEUE ∨ info.si_code = c.SI_USER)
    (hp1 : -(2 ^ 31) ≤ info.si_pid) (hp2 : info.si_pid < 2 ^ 31) (hu : info.si_uid < 2 ^ 32)
    (hs1 : ¬(info.si_pid = -1 ∧ info.si_uid = 1))
    (hs2 : ¬(info.si_pid = -1 ∧ info.si_uid = 2)) :
    (WithOrigin.load (WithOrigin.store c OriginStorage.default signal info) signal).2
      = some { signal := signal, origin_type := OriginType.Process info.si_pid info.si_uid }
    ∧ (WithOrigin.load
        (WithOrigin.load (WithOrigin.store c OriginStorage.default signal info) signal).1
        signal).2 = none := by
  have hstore : WithOrigin.store c OriginStorage.default signal info
      = WithOrigin.compose info.si_pid info.si_uid := by
    unfold WithOrigin.store
    exact if_pos hcode
  have hne1 : WithOrigin.compose info.si_pid info.si_uid ≠ WithOrigin.EMPTY := by
    rw [Ne, compose_eq_empty_iff _ _ hp1 hp2 hu]
    exact hs1
  have hne2 : WithOrigin.compose info.si_pid info.si_uid ≠ WithOrigin.UNKNOWN := by
    rw [Ne, compose_eq_unknown_iff _ _ hp1 hp2 hu]
    exact hs2
  constructor
  · rw [hstore]
    simp only [WithOrigin.load, if_neg hne1, if_neg hne2]
    rw [decode_compose_pid _ _ hp1 hp2, decode_compose_uid _ _ hu]
  · simp [WithOrigin.load]

/-- Claim C1 witness: the spec's end-to-end scenario — signal 10, code
`SI_USER`, pid 4242, uid 7 — observed once and then drained. -/
theorem withOrigin_store_once_load_once_witness :
    (WithOrigin.load (WithOrigin.store linuxConsts OriginStorage.default 10 ⟨0, 4242, 7⟩) 10).2
      = some { signal := 10, origin_type := OriginType.Process 4242 7 }
    ∧ (WithOrigin.load
        (WithOrigin.load (WithOrigin.store linuxConsts OriginStorage.default 10 ⟨0, 4242, 7⟩) 10).1
        10).2 = none :=
  withOrigin_store_once_load_once linuxConsts ⟨0, 4242, 7⟩ 10 (Or.inr rfl)
    (by decide) (by decide) (by decide) (by decide) (by decide)

/-- Claim C2 counterexample: the pid/uid pairs `(-1, 1)` and `(-1, 2)` are
both within 32-bit range, and packing them with `compose` produces
exactly the `EMPTY` and `UNKNOWN` sentinels — the sentinels do collide
with legitimately packed pairs. -/
theorem compose_collides_with_sentinels :
    WithOrigin.compose (-1) 1 = WithOrigin.EMPTY
    ∧ WithOrigin.compose (-1) 2 = WithOrigin.UNKNOWN :=
  ⟨rfl, rfl⟩

/-- Claim C2 (amended): for every 32-bit pid/uid pair other than
`(-1, 1)` and `(-1, 2)`, the packed word `compose(pid, uid)` differs from
both the `EMPTY` and the `UNKNOWN` sentinel. -/
theorem compose_avoids_sentinels (p : Int) (u : Nat)
    (hp1 : -(2 ^ 31) ≤ p) (hp2 : p < 2 ^ 31) (hu : u < 2 ^ 32)
    (hs1 : ¬(p = -1 ∧ u = 1)) (hs2 : ¬(p = -1 ∧ u = 2)) :
    WithOrigin.compose p u ≠ WithOrigin.EMPTY
    ∧ WithOrigin.compose p u ≠ WithOrigin.UNKNOWN := by
  constructor
  · rw [Ne, compose_eq_empty_iff p u hp1 hp2 hu]
    exact hs1
  · rw [Ne, compose_eq_unknown_iff p u hp1 hp2 hu]
    exact hs2

/-- Claim C2 witness: the packed word for pid 4242, uid 7 matches neither
sentinel. -/
theorem compose_avoids_sentinels_witness :
    WithOrigin.compose 4242 7 ≠ WithOrigin.EMPTY
    ∧ WithOrigin.compose 4242 7 ≠ WithOrigin.UNKNOWN :=
  compose_avoids_sentinels 4242 7 (by decide) (by decide) (by decide) (by decide) (by decide)

/-- Claim C5: round-trip of the atomic-word encoding — for every pid and
uid representable in 32 bits, excluding the two reserved sentinel pairs,
decoding `compose(pid, uid)` the way `WithOrigin::load` does (high 32
bits as the signed pid, low 32 bits as the uid) recovers exactly the
original pid and uid. -/
theorem pack_roundtrip (p : Int) (u : Nat)
    (hp1 : -(2 ^ 31) ≤ p) (hp2 : p < 2 ^ 31) (hu : u < 2 ^ 32)
    (hs1 : ¬(p = -1 ∧ u = 1)) (hs2 : ¬(p = -1 ∧ u = 2)) :
    WithOrigin.decodePid (WithOrigin.compose p u) = p
    ∧ WithOrigin.decodeUid (WithOrigin.compose p u) = u :=
  ⟨decode_compose_pid p u hp1 hp2, decode_compose_uid p u hu⟩

/-- Claim C5 witness: the pair (pid -7, uid 3) survives the encode-decode
round trip. -/
theorem pack_roundtrip_witness :
    WithOrigin.decodePid (WithOrigin.compose (-7) 3) = -7
    ∧ WithOrigin.decodeUid (WithOrigin.compose (-7) 3) = 3 :=
  pack_roundtrip (-7) 3 (by decide) (by decide) (by decide) (by decide) (by decide)

/-- Claim C7: after a `WithOrigin::store` whose raw-metadata code matches
neither `SI_QUEUE` nor `SI_USER`, the next `load` returns
`Some` of an `Origin` carrying `load`'s signal argument and the `Unknown`
origin, whatever the sender pid/uid fields hold and whatever the slot
held before. -/
theorem withOrigin_unmatched_code (c : PlatformConsts) (info : SigInfo) (s : Nat) (signal : Int)
    (h1 : info.si_code ≠ c.SI_QUEUE) (h2 : info.si_code ≠ c.SI_USER) :
    (WithOrigin.load (WithOrigin.store c s signal info) signal).2
      = some { signal := signal, origin_type := OriginType.Unknown } := by
  have hstore : WithOrigin.store c s signal info = WithOrigin.UNKNOWN := by
    unfold WithOrigin.store
    rw [if_neg]
    rintro (h | h)
    · exact h1 h
    · exact h2 h
  rw [hstore]
  have hne : ¬(WithOrigin.UNKNOWN = WithOrigin.EMPTY) := by decide
  simp [WithOrigin.load, hne]

/-- Claim C7 witness: with the Linux constants, a delivery with
`si_code = 12345` (matching neither constant) is reported as `Unknown`
with the loaded signal 17, regardless of the pid/uid fields. -/
theorem withOrigin_unmatched_code_witness :
    (WithOrigin.load (WithOrigin.store linuxConsts OriginStorage.default 17 ⟨12345, 4242, 7⟩) 17).2
      = some { signal := 17, origin_type := OriginType.Unknown } :=
  withOrigin_unmatched_code linuxConsts ⟨12345, 4242, 7⟩ OriginStorage.default 17
    (by decide) (by decide)

/-- Claim C6: slot state invariant for `WithOrigin`. The two sentinels are
distinct, so a slot word is in exactly one of the states empty (`EMPTY`),
unknown-pending (`UNKNOWN`) or process-pending (any other word, and every
such word is a genuinely packed pid/uid word, recovered by
`compose (decodePid w) (decodeUid w) = w`). `store` unconditionally
overwrites: any finite sequence of stores leaves exactly the state the
last store alone would write. `load` takes every state to empty and
returns the prior payload: `None` exactly on the empty state, the
`Unknown` origin on the unknown-pending state, and the unpacked pid/uid
on a process-pending state. -/
theorem withOrigin_slot_invariant (c : PlatformConsts) :
    WithOrigin.EMPTY ≠ WithOrigin.UNKNOWN
    ∧ (∀ (calls : List (Int × SigInfo)) (final : Int × SigInfo) (s : Nat),
        WithOrigin.storeSeq c (calls ++ [final]) s = WithOrigin.store c s final.1 final.2)
    ∧ (∀ (w : Nat) (signal : Int),
        (WithOrigin.load w signal).1 = WithOrigin.EMPTY
        ∧ ((WithOrigin.load w signal).2 = none ↔ w = WithOrigin.EMPTY))
    ∧ (∀ signal : Int, (WithOrigin.load WithOrigin.UNKNOWN signal).2
        = some { signal := signal, origin_type := OriginType.Unknown })
    ∧ (∀ (w : Nat) (signal : Int),
        w < 2 ^ 64 → w ≠ WithOrigin.EMPTY → w ≠ WithOrigin.UNKNOWN →
        WithOrigin.compose (WithOrigin.decodePid w) (WithOrigin.decodeUid w) = w
        ∧ (WithOrigin.load w signal).2
          = some { signal := signal,
                   origin_type := OriginType.Process
                     (WithOrigin.decodePid w) (WithOrigin.decodeUid w) }) := by
  refine ⟨by decide, fun calls final s => ?_, fun w signal => ⟨rfl, ?_⟩, fun signal => ?_,
    fun w signal hw h1 h2 => ⟨compose_decode w hw, ?_⟩⟩
  · unfold WithOrigin.storeSeq
    rw [List.foldl_append]
    rfl
  · by_cases h : w = WithOrigin.EMPTY
    · simp [WithOrigin.load, h]
    · by_cases h2 : w = WithOrigin.UNKNOWN <;> simp [WithOrigin.load, h, h2]
  · have hne : ¬(WithOrigin.UNKNOWN = WithOrigin.EMPTY) := by decide
    simp [WithOrigin.load, hne]
  · simp [WithOrigin.load, h1, h2]

/-- Claim C6 witness: the word 5 is a process-pending state (pid 0, uid
5); it decodes and re-packs to itself and `load` reports that pid/uid
pair. -/
theorem withOrigin_slot_invariant_witness :
    WithOrigin.compose (WithOrigin.decodePid 5) (WithOrigin.decodeUid 5) = 5
    ∧ (WithOrigin.load 5 3).2
      = some { signal := 3,
               origin_type := OriginType.Process
                 (WithOrigin.decodePid 5) (WithOrigin.decodeUid 5) } :=
  (withOrigin_slot_invariant linuxConsts).2.2.2.2 5 3 (by decide) (by decide) (by decide)

/-- Claim C3: `Origin::extract` maps the native decode function's return
discriminant as follows — `0` (`ORIGIN_UNKNOWN`) yields
`Origin::Unknown`, `2` (`ORIGIN_KERNEL`) yields `Origin::Kernel`, `1`
(`ORIGIN_PROCESS`) yields `Origin::Process` carrying the pid and uid the
native helper wrote through the output parameters with cause always
`Cause::User`, and every other `u8` discriminant reaches the wildcard
arm, which aborts the process; no error value is ever returned. -/
theorem extract_discriminant_mapping :
    (∀ (p : Int) (u : Nat),
        Internal.Origin.extract { origin := 0, pid := p, uid := u }
          = Internal.ExtractResult.ok Internal.Origin.Unknown)
    ∧ (∀ (p : Int) (u : Nat),
        Internal.Origin.extract { origin := 2, pid := p, uid := u }
          = Internal.ExtractResult.ok Internal.Origin.Kernel)
    ∧ (∀ (p : Int) (u : Nat),
        Internal.Origin.extract { origin := 1, pid := p, uid := u }
          = Internal.ExtractResult.ok (Internal.Origin.Process p u Internal.Cause.User))
    ∧ (∀ (o : Nat) (p : Int) (u : Nat), o < 256 →
        o ≠ Internal.ORIGIN_UNKNOWN → o ≠ Internal.ORIGIN_PROCESS → o ≠ Internal.ORIGIN_KERNEL →
        Internal.Origin.extract { origin := o, pid := p, uid := u }
          = Internal.ExtractResult.abort) := by
  refine ⟨fun p u => rfl, fun p u => rfl, fun p u => rfl, fun o p u hlt h0 h1 h2 => ?_⟩
  simp only [Internal.ORIGIN_UNKNOWN, Internal.ORIGIN_PROCESS, Internal.ORIGIN_KERNEL] at h0 h1 h2
  simp [Internal.Origin.extract, Internal.ORIGIN_UNKNOWN, Internal.ORIGIN_PROCESS,
    Internal.ORIGIN_KERNEL, h0, h1, h2]

/-- Claim C3 witness: the out-of-contract discriminant 7 aborts. -/
theorem extract_discriminant_mapping_witness :
    Internal.Origin.extract { origin := 7, pid := 4242, uid := 9 }
      = Internal.ExtractResult.abort :=
  extract_discriminant_mapping.2.2.2 7 4242 9 (by decide) (by decide) (by decide) (by decide)

/-- Claim C9 counterexample: `status().expect(..)` panics only when the
child process cannot be started, not when it exits with a non-zero
status. When the probe binary runs but exits with status 1 — a failed
execution in the spec's sense — the build completes normally; and when
the probe cannot be started, the build does panic, but the generated
constants file has already been created (empty) beforehand. -/
theorem buildMain_misses_exit_failures :
    Build.specRunFailed (Build.SpawnOutcome.exited 1) = true
    ∧ (Build.buildMain (Build.SpawnOutcome.exited 0) (Build.SpawnOutcome.exited 1)).panicked
      = false
    ∧ (Build.buildMain (Build.SpawnOutcome.exited 0)
        Build.SpawnOutcome.spawnFailed).constantsFileCreated = true := by
  decide

/-- Claim C9 (amended): the Platform Constant Resolver build step
terminates abnormally exactly when starting the compiler process or
starting the probe process fails; a process that starts but exits with a
non-zero status is not detected as a failure; and the generated constants
file exists exactly when the compiler step did not panic — in particular
it has already been created when the probe step panics. -/
theorem buildMain_panics_iff_spawn_fails (c r : Build.SpawnOutcome) :
    ((Build.buildMain c r).panicked = true
        ↔ (c = Build.SpawnOutcome.spawnFailed ∨ r = Build.SpawnOutcome.spawnFailed))
    ∧ ((Build.buildMain c r).constantsFileCreated = true
        ↔ c ≠ Build.SpawnOutcome.spawnFailed) := by
  cases c <;> cases r <;> simp [Build.buildMain]

end SignalHook
